import Mathlib

/-!
Verification development for the `unifi_access` Rust client
(`src/lib.rs`), covering the generic request/response protocol layer and
the NFC card enrollment workflow.

Modelling conventions:
* JSON values are a tagged tree `Json`; numbers keep their lexeme, since
  no verified property inspects numeric values.
* `parseJson` is a fueled JSON text parser standing in for
  `serde_json::from_str`: it covers JSON objects, arrays, strings with
  the standard escapes (including `\uXXXX` for non-surrogate scalars),
  numbers, booleans and null, rejects raw control characters inside
  strings and trailing input.  Duplicate keys of the struct fields
  `data`/`msg`/`code` are rejected by the envelope decoder, mirroring
  serde's "duplicate field" error for derived structs; lookups inside a
  `data` payload are last-occurrence-wins, mirroring `serde_json::Value`
  map collapse.
* The crate's error type is `Box<dyn Error>` holding distinct message
  strings per construction site; `UnifiError` gives each construction
  site in the modelled code its own constructor.
* Network effects are modelled by passing the transport outcome
  (`Except String String`: either a transport failure message or the raw
  response body) as an explicit argument; the enrollment loop takes the
  list of successive poll transport outcomes and additionally returns
  the list of observable events (start, session-id write, poll, sleep).
-/

/-- A JSON value, as produced by `serde_json`.  Numbers keep their
source lexeme. -/
inductive Json where
  | null : Json
  | bool (b : Bool) : Json
  | num (lexeme : String) : Json
  | str (s : String) : Json
  | arr (elems : List Json) : Json
  | obj (fields : List (String × Json)) : Json

/-- Last-occurrence-wins association lookup, mirroring key collapse in a
`serde_json::Value` object map. -/
def lookupLast : List (String × Json) → String → Option Json
  | [], _ => none
  | (k', v) :: rest, k =>
    match lookupLast rest k with
    | some w => some w
    | none => if k' == k then some v else none

/-- Number of occurrences of a key among an object's fields. -/
def countKey : List (String × Json) → String → Nat
  | [], _ => 0
  | (k', _) :: rest, k => (if k' == k then 1 else 0) + countKey rest k

/-- Whitespace accepted between JSON tokens. -/
def isWs (c : Char) : Bool :=
  c == ' ' || c == '\t' || c == '\n' || c == '\r'

/-- Drop leading JSON whitespace. -/
def skipWs : List Char → List Char
  | [] => []
  | c :: rest => if isWs c then skipWs rest else c :: rest

/-- Value of a hexadecimal digit. -/
def hexVal (c : Char) : Option Nat :=
  if c.isDigit then some (c.toNat - 48)
  else if 97 ≤ c.toNat && c.toNat ≤ 102 then some (c.toNat - 87)
  else if 65 ≤ c.toNat && c.toNat ≤ 70 then some (c.toNat - 55)
  else none

/-- Simple (single-character) JSON string escapes. -/
def escChar : Char → Option Char
  | '"' => some '"'
  | '\\' => some '\\'
  | '/' => some '/'
  | 'b' => some (Char.ofNat 8)
  | 'f' => some (Char.ofNat 12)
  | 'n' => some (Char.ofNat 10)
  | 'r' => some (Char.ofNat 13)
  | 't' => some (Char.ofNat 9)
  | _ => none

/-- Parse the remainder of a JSON string literal (after the opening
quote); returns the decoded characters and the rest of the input. -/
def parseStrChars : Nat → List Char → Option (List Char × List Char)
  | 0, _ => none
  | _ + 1, [] => none
  | fuel + 1, c :: rest =>
    if c == '"' then some ([], rest)
    else if c == '\\' then
      match rest with
      | 'u' :: h1 :: h2 :: h3 :: h4 :: rest2 =>
        match hexVal h1, hexVal h2, hexVal h3, hexVal h4 with
        | some a, some b, some d, some e =>
          let n := ((a * 16 + b) * 16 + d) * 16 + e
          if n < 55296 || 57343 < n then
            match parseStrChars fuel rest2 with
            | some (cs, r) => some (Char.ofNat n :: cs, r)
            | none => none
          else none
        | _, _, _, _ => none
      | e :: rest2 =>
        match escChar e with
        | some ch =>
          match parseStrChars fuel rest2 with
          | some (cs, r) => some (ch :: cs, r)
          | none => none
        | none => none
      | [] => none
    else if c.toNat < 32 then none
    else
      match parseStrChars fuel rest with
      | some (cs, r) => some (c :: cs, r)
      | none => none

/-- Split a leading run of decimal digits off the input. -/
def takeDigits : List Char → List Char × List Char
  | [] => ([], [])
  | c :: rest =>
    if c.isDigit then
      match takeDigits rest with
      | (ds, r) => (c :: ds, r)
    else ([], c :: rest)

/-- Optional fraction part of a JSON number. -/
def parseFrac : List Char → Option (List Char × List Char)
  | '.' :: rest =>
    match takeDigits rest with
    | ([], _) => none
    | (ds, r) => some ('.' :: ds, r)
  | l => some ([], l)

/-- Optional exponent part of a JSON number. -/
def parseExp : List Char → Option (List Char × List Char)
  | [] => some ([], [])
  | c :: rest =>
    if c == 'e' || c == 'E' then
      match rest with
      | [] => none
      | s :: rest2 =>
        if s == '+' || s == '-' then
          match takeDigits rest2 with
          | ([], _) => none
          | (ds, r) => some (c :: s :: ds, r)
        else
          match takeDigits rest with
          | ([], _) => none
          | (ds, r) => some (c :: ds, r)
    else some ([], c :: rest)

/-- Parse a JSON number lexeme (leading-zero rule included). -/
def parseNum (l : List Char) : Option (List Char × List Char) :=
  match l with
  | '-' :: l1 => (parseNumCore l1).map fun (lex, r) => ('-' :: lex, r)
  | _ => parseNumCore l
where
  parseNumCore : List Char → Option (List Char × List Char)
  | [] => none
  | '0' :: rest =>
    match parseFrac rest with
    | some (fr, r2) =>
      match parseExp r2 with
      | some (ex, r3) => some ('0' :: (fr ++ ex), r3)
      | none => none
    | none => none
  | c :: rest =>
    if c.isDigit then
      match takeDigits rest with
      | (ds, r1) =>
        match parseFrac r1 with
        | some (fr, r2) =>
          match parseExp r2 with
          | some (ex, r3) => some (c :: (ds ++ fr ++ ex), r3)
          | none => none
        | none => none
    else none

mutual

/-- Parse one JSON value; returns the value and the remaining input. -/
def parseValue : Nat → List Char → Option (Json × List Char)
  | 0, _ => none
  | fuel + 1, l =>
    match skipWs l with
    | [] => none
    | '"' :: rest =>
      match parseStrChars fuel rest with
      | some (cs, r) => some (.str (String.mk cs), r)
      | none => none
    | '{' :: rest => parseObjBody fuel (skipWs rest)
    | '[' :: rest => parseArrBody fuel (skipWs rest)
    | 'n' :: 'u' :: 'l' :: 'l' :: r => some (.null, r)
    | 't' :: 'r' :: 'u' :: 'e' :: r => some (.bool true, r)
    | 'f' :: 'a' :: 'l' :: 's' :: 'e' :: r => some (.bool false, r)
    | c :: rest =>
      if c == '-' || c.isDigit then
        match parseNum (c :: rest) with
        | some (lex, r) => some (.num (String.mk lex), r)
        | none => none
      else none

/-- Parse an object body (input already past `{` and whitespace). -/
def parseObjBody : Nat → List Char → Option (Json × List Char)
  | 0, _ => none
  | fuel + 1, l =>
    match l with
    | '}' :: r => some (.obj [], r)
    | _ =>
      match parseMembers fuel l with
      | some (fields, r) => some (.obj fields, r)
      | none => none

/-- Parse one or more `"key": value` members up to the closing `}`. -/
def parseMembers : Nat → List Char → Option (List (String × Json) × List Char)
  | 0, _ => none
  | fuel + 1, l =>
    match skipWs l with
    | '"' :: rest =>
      match parseStrChars fuel rest with
      | some (key, r1) =>
        match skipWs r1 with
        | ':' :: r2 =>
          match parseValue fuel r2 with
          | some (v, r3) =>
            match skipWs r3 with
            | ',' :: r4 =>
              match parseMembers fuel r4 with
              | some (fields, r5) => some ((String.mk key, v) :: fields, r5)
              | none => none
            | '}' :: r4 => some ([(String.mk key, v)], r4)
            | _ => none
          | none => none
        | _ => none
      | none => none
    | _ => none

/-- Parse an array body (input already past `[` and whitespace). -/
def parseArrBody : Nat → List Char → Option (Json × List Char)
  | 0, _ => none
  | fuel + 1, l =>
    match l with
    | ']' :: r => some (.arr [], r)
    | _ =>
      match parseElems fuel l with
      | some (vs, r) => some (.arr vs, r)
      | none => none

/-- Parse one or more array elements up to the closing `]`. -/
def parseElems : Nat → List Char → Option (List Json × List Char)
  | 0, _ => none
  | fuel + 1, l =>
    match parseValue fuel l with
    | some (v, r1) =>
      match skipWs r1 with
      | ',' :: r2 =>
        match parseElems fuel r2 with
        | some (vs, r3) => some (v :: vs, r3)
        | none => none
      | ']' :: r2 => some ([v], r2)
      | _ => none
    | none => none

end

/-- Parse a complete JSON document, rejecting trailing input; the model
of `serde_json::from_str::<serde_json::Value>`. -/
def parseJson (s : String) : Option Json :=
  match parseValue (4 * s.length + 8) s.data with
  | some (v, rest) => if skipWs rest == [] then some v else none
  | none => none

/-- The standard response format for all endpoints (`GenericResponse` in
`lib.rs`): optional `data`, required string `msg` and `code`. -/
structure GenericResponse where
  data : Option Json
  msg : String
  code : String

/-- Decode a parsed JSON value as a `GenericResponse`, the model of the
serde-derived `Deserialize`: the value must be an object, `msg` and
`code` must be present strings, `data` is optional (absent or `null`
gives `none`), unknown fields are ignored, duplicates of the three
struct fields are rejected. -/
def decodeGenericResponse : Json → Option GenericResponse
  | .obj fields =>
    if countKey fields "data" ≤ 1 ∧ countKey fields "msg" ≤ 1 ∧ countKey fields "code" ≤ 1 then
      match lookupLast fields "msg", lookupLast fields "code" with
      | some (.str m), some (.str c) =>
        some { data := (match lookupLast fields "data" with
                        | none => none
                        | some .null => none
                        | some v => some v),
               msg := m, code := c }
      | _, _ => none
    else none
  | _ => none

/-- `serde_json::from_str::<GenericResponse>`: parse the raw body, then
decode the envelope. -/
def parseGenericResponse (s : String) : Option GenericResponse :=
  match parseJson s with
  | none => none
  | some j => decodeGenericResponse j

/-- An NFC card (`NfcCard` in `lib.rs`): display id plus the physical
token. -/
structure NfcCard where
  id : String
  token : String
deriving DecidableEq

/-- `serde_json::from_value::<NfcCard>`: object with required string
fields `id` and `token`; unknown fields ignored. -/
def decodeNfcCard : Json → Option NfcCard
  | .obj fields =>
    match lookupLast fields "id", lookupLast fields "token" with
    | some (.str i), some (.str t) => some { id := i, token := t }
    | _, _ => none
  | _ => none

/-- `serde_json::from_value::<Option<NfcCard>>`: `null` gives `none`,
anything else must decode as a card. -/
def decodeOptNfcCard : Json → Option (Option NfcCard)
  | .null => some none
  | j => (decodeNfcCard j).map some

/-- Serde serialization of an `NfcCard` back to JSON. -/
def serializeNfcCard (c : NfcCard) : Json :=
  .obj [("id", .str c.id), ("token", .str c.token)]

/-- `serde_json::Value::get` on an object (by key), `None` otherwise. -/
def jsonGet (j : Json) (k : String) : Option Json :=
  match j with
  | .obj fields => lookupLast fields k
  | _ => none

/-- `serde_json::Value::as_str`. -/
def jsonAsStr : Json → Option String
  | .str s => some s
  | _ => none

/-- The crate's failures.  The Rust code uses `Box<dyn Error>` holding a
distinct message per construction site; each site in the modelled code
gets its own constructor:
* `transportError` — `reqwest`/body-decoding failure in
  `generic_request_raw`;
* `malformedResponse` — `serde_json::from_str::<GenericResponse>`
  failure (carries the raw body);
* `apiError` — `bail!("Failed request to {api_path}: {msg}")` in
  `generic_request_no_parse`;
* `noDataFound` — `"No data found in response"` in `generic_request`;
* `schemaMismatch` — `serde_json::from_value::<T>` failure in
  `generic_request`;
* `sessionCanceled` — `"Session has been canceled"` in
  `get_nfc_enrollment_session_status`;
* `dataNotFoundInResponse` — `"data not found in response"` in
  `get_nfc_enrollment_session_status`;
* `cardSchemaMismatch` — `serde_json::from_value::<Option<NfcCard>>`
  failure in `get_nfc_enrollment_session_status`;
* `simpleErr` — remaining ad hoc `SimpleError` sites (e.g. the
  `session_id` extraction in `start_nfc_enrollment_session`). -/
inductive UnifiError where
  | transportError (msg : String)
  | malformedResponse (raw : String)
  | apiError (path : String) (msg : String)
  | noDataFound
  | schemaMismatch
  | sessionCanceled
  | dataNotFoundInResponse
  | cardSchemaMismatch
  | simpleErr (msg : String)
deriving DecidableEq

/-- The distinct kinds of failure, one per `UnifiError` constructor. -/
inductive ErrKind where
  | transport
  | malformed
  | api
  | noData
  | schemaBad
  | canceled
  | pollNoData
  | cardSchemaBad
  | simple
deriving DecidableEq

/-- Kind of a `UnifiError`. -/
def UnifiError.kind : UnifiError → ErrKind
  | .transportError _ => .transport
  | .malformedResponse _ => .malformed
  | .apiError _ _ => .api
  | .noDataFound => .noData
  | .schemaMismatch => .schemaBad
  | .sessionCanceled => .canceled
  | .dataNotFoundInResponse => .pollNoData
  | .cardSchemaMismatch => .cardSchemaBad
  | .simpleErr _ => .simple

/-- `generic_request_raw`: issue the HTTP request and return the raw
response text.  The transport outcome is the explicit argument; a
transport-level failure surfaces unchanged. -/
def generic_request_raw (resp : Except String String) : Except UnifiError String :=
  match resp with
  | .error m => .error (.transportError m)
  | .ok body => .ok body

/-- `generic_request_no_parse`: hit an endpoint and handle the response
code without deserializing the `data` field.  Decodes the envelope; on
`code != "SUCCESS"` fails with the vendor message and the request path;
otherwise returns the optional payload. -/
def generic_request_no_parse (api_path : String) (resp : Except String String) :
    Except UnifiError (Option Json) :=
  match generic_request_raw resp with
  | .error e => .error e
  | .ok response =>
    match parseGenericResponse response with
    | none => .error (.malformedResponse response)
    | some parsed =>
      if parsed.code ≠ "SUCCESS" then .error (.apiError api_path parsed.msg)
      else .ok parsed.data

/-- The always-succeeding decoder for `T = serde_json::Value`. -/
def decodeAnyJson (j : Json) : Option Json := some j

/-- `generic_request::<T>`: call `generic_request_no_parse`; absent
payload fails with `noDataFound`, otherwise deserialize the payload
with the decoder for `T` (`schemaMismatch` on failure). -/
def generic_request {T : Type} (dec : Json → Option T) (api_path : String)
    (resp : Except String String) : Except UnifiError T :=
  match generic_request_no_parse api_path resp with
  | .error e => .error e
  | .ok none => .error .noDataFound
  | .ok (some v) =>
    match dec v with
    | none => .error .schemaMismatch
    | some t => .ok t

/-- Substring test on character lists (`str::contains` with a string
pattern). -/
def charsHasPref : List Char → List Char → Bool
  | [], _ => true
  | _ :: _, [] => false
  | a :: as, b :: bs => a == b && charsHasPref as bs

/-- Does `pat` occur as a contiguous substring? -/
def charsContains (pat : List Char) : List Char → Bool
  | [] => charsHasPref pat []
  | b :: bs => charsHasPref pat (b :: bs) || charsContains pat bs

/-- `String::contains` on whole strings. -/
def containsSub (pat s : String) : Bool := charsContains pat.data s.data

/-- API path of the open-enrollment-session endpoint. -/
def startSessionPath : String := "/api/v1/developer/credentials/nfc_cards/sessions"

/-- API path of the end-enrollment-session endpoint for a session. -/
def endSessionPath (session_id : String) : String :=
  "/api/v1/developer/credentials/nfc_cards/sessions/" ++ session_id

/-- `start_nfc_enrollment_session`: POST the open-session request, then
extract `session_id` from the returned payload. -/
def start_nfc_enrollment_session (resp : Except String String) : Except UnifiError String :=
  match generic_request decodeAnyJson startSessionPath resp with
  | .error e => .error e
  | .ok v =>
    match jsonGet v "session_id" with
    | none => .error (.simpleErr "session_id not found in response")
    | some sv =>
      match jsonAsStr sv with
      | none => .error (.simpleErr "session_id not a string")
      | some s => .ok s

/-- The tail of `get_nfc_enrollment_session_status` after envelope
decoding: reject an absent payload, then decode the payload as an
optional card. -/
def pollDecodePayload : Option Json → Except UnifiError (Option NfcCard)
  | none => .error .dataNotFoundInResponse
  | some body =>
    match decodeOptNfcCard body with
    | none => .error .cardSchemaMismatch
    | some x => .ok x

/-- `get_nfc_enrollment_session_status`: one status poll.  The raw body
is first sniffed for the `SESSION_NOT_FOUND` and `TOKEN_EMPTY` sentinel
substrings (in that order), then decoded as an envelope; the payload is
decoded as an optional card. -/
def get_nfc_enrollment_session_status (resp : Except String String) :
    Except UnifiError (Option NfcCard) :=
  match generic_request_raw resp with
  | .error e => .error e
  | .ok response =>
    if containsSub "SESSION_NOT_FOUND" response then .error .sessionCanceled
    else if containsSub "TOKEN_EMPTY" response then .ok none
    else
      match parseGenericResponse response with
      | none => .error (.malformedResponse response)
      | some parsed => pollDecodePayload parsed.data

/-- `end_enrollment_session`: DELETE the session; any failure from the
generic layer propagates. -/
def end_enrollment_session (session_id : String) (resp : Except String String) :
    Except UnifiError Unit :=
  match generic_request_no_parse (endSessionPath session_id) resp with
  | .error e => .error e
  | .ok _ => .ok ()

/-- Observable events of one enrollment run: the start call, the write
of the session id into the mutex-guarded holder, a status poll, a
sleep. -/
inductive Event where
  | startCall
  | sessionWrite (sid : String)
  | pollCall (sid : String)
  | sleepMs (ms : Nat)
deriving DecidableEq

/-- The polling loop of `enroll_nfc_card`, driven by the list of
successive poll transport outcomes.  Returns `none` if the supplied
outcomes run out while still pending (the Rust loop would keep
polling), together with the emitted events. -/
def pollLoop (sid : String) : List (Except String String) →
    Option (Except UnifiError NfcCard) × List Event
  | [] => (none, [])
  | r :: rest =>
    match get_nfc_enrollment_session_status r with
    | .ok (some card) => (some (.ok card), [.pollCall sid])
    | .ok none =>
      ((pollLoop sid rest).1, .pollCall sid :: .sleepMs 100 :: (pollLoop sid rest).2)
    | .error e => (some (.error e), [.pollCall sid])

/-- `enroll_nfc_card`: start a session, store its id in the shared
holder, then poll (sleeping 100 ms after each pending poll) until a
card or an error.  Returns the outcome and the event trace. -/
def enroll_nfc_card (startResp : Except String String)
    (polls : List (Except String String)) :
    Option (Except UnifiError NfcCard) × List Event :=
  match start_nfc_enrollment_session startResp with
  | .error e => (some (.error e), [.startCall])
  | .ok session =>
    ((pollLoop session polls).1,
     .startCall :: .sessionWrite session :: (pollLoop session polls).2)

/-- Is an event a status poll? -/
def isPollEvent : Event → Bool
  | .pollCall _ => true
  | _ => false

/-- Number of status polls in a trace. -/
def countPolls (evs : List Event) : Nat := (evs.filter isPollEvent).length

/-- One step of the mutex-guarded holder's evolution. -/
def holderUpd (h : Option String) (e : Event) : Option String :=
  match e with
  | .sessionWrite s => some s
  | _ => h

/-- Content of the mutex-guarded session-id holder after a trace. -/
def holderAfter (evs : List Event) : Option String := evs.foldl holderUpd none

/-- Number of holder writes in a trace. -/
def writeCount (evs : List Event) : Nat :=
  (evs.filter fun e => match e with | .sessionWrite _ => true | _ => false).length

/-- Every poll in the trace uses the given session id. -/
def pollsUse (sid : String) (evs : List Event) : Bool :=
  evs.all fun e => match e with | .pollCall s => s == sid | _ => true

/-- Is a poll outcome the pending (`Ok(None)`) case? -/
def isPending : Except UnifiError (Option NfcCard) → Bool
  | .ok none => true
  | _ => false

/-- Are all the given poll transport outcomes classified as pending? -/
def allPending (rs : List (Except String String)) : Bool :=
  rs.all fun r => isPending (get_nfc_enrollment_session_status r)

/-- Is a request outcome a failure? -/
def isErrorResult {α : Type} : Except UnifiError α → Bool
  | .error _ => true
  | .ok _ => false

/-- The kind of failure of a request outcome, if it is one. -/
def errKindOf {α : Type} : Except UnifiError α → Option ErrKind
  | .error e => some e.kind
  | .ok _ => none

/-- Event in the polling loop's trace: a poll with the right id or the
100 ms sleep. -/
def isLoopEvent (sid : String) : Event → Bool
  | .pollCall s => s == sid
  | .sleepMs ms => ms == 100
  | _ => false

/-- The body of a poll response that is not a well-formed envelope
carrying a payload: either it fails to decode as an envelope at all, or
the decoded envelope has no `data`. -/
def lacksPayload (body : String) : Bool :=
  match parseGenericResponse body with
  | none => true
  | some env => env.data.isNone

/-- A pending poll outcome is exactly `Ok(None)`. -/
theorem isPending_eq (x : Except UnifiError (Option NfcCard)) (h : isPending x = true) :
    x = .ok none := by
  cases x with
  | error e => simp [isPending] at h
  | ok v =>
    cases v with
    | none => rfl
    | some c => simp [isPending] at h

/-- A non-success envelope makes `generic_request_no_parse` fail with
the vendor message and the request path. -/
theorem no_parse_api_error (api_path body : String) (env : GenericResponse)
    (hp : parseGenericResponse body = some env) (hcode : env.code ≠ "SUCCESS") :
    generic_request_no_parse api_path (.ok body) = .error (.apiError api_path env.msg) := by
  simp [generic_request_no_parse, generic_request_raw, hp, hcode]

/-- A success envelope makes `generic_request_no_parse` return the
payload. -/
theorem no_parse_success (api_path body : String) (env : GenericResponse)
    (hp : parseGenericResponse body = some env) (hcode : env.code = "SUCCESS") :
    generic_request_no_parse api_path (.ok body) = .ok env.data := by
  simp [generic_request_no_parse, generic_request_raw, hp, hcode]

/-- A body containing `SESSION_NOT_FOUND` is classified as a canceled
session. -/
theorem status_snf (body : String)
    (h : containsSub "SESSION_NOT_FOUND" body = true) :
    get_nfc_enrollment_session_status (.ok body) = .error .sessionCanceled := by
  simp [get_nfc_enrollment_session_status, generic_request_raw, h]

/-- A body containing `TOKEN_EMPTY` but not `SESSION_NOT_FOUND` is
classified as pending. -/
theorem status_token_empty (body : String)
    (h1 : containsSub "SESSION_NOT_FOUND" body = false)
    (h2 : containsSub "TOKEN_EMPTY" body = true) :
    get_nfc_enrollment_session_status (.ok body) = .ok none := by
  simp [get_nfc_enrollment_session_status, generic_request_raw, h1, h2]

/-- Without either sentinel, a body that decodes as an envelope is
classified from its payload alone. -/
theorem status_envelope (body : String) (env : GenericResponse)
    (h1 : containsSub "SESSION_NOT_FOUND" body = false)
    (h2 : containsSub "TOKEN_EMPTY" body = false)
    (hp : parseGenericResponse body = some env) :
    get_nfc_enrollment_session_status (.ok body) = pollDecodePayload env.data := by
  simp [get_nfc_enrollment_session_status, generic_request_raw, h1, h2, hp]

/-- Without either sentinel, a body that does not decode as an envelope
is a malformed response. -/
theorem status_malformed (body : String)
    (h1 : containsSub "SESSION_NOT_FOUND" body = false)
    (h2 : containsSub "TOKEN_EMPTY" body = false)
    (hp : parseGenericResponse body = none) :
    get_nfc_enrollment_session_status (.ok body) = .error (.malformedResponse body) := by
  simp [get_nfc_enrollment_session_status, generic_request_raw, h1, h2, hp]

/-- A value that decodes as a card is a JSON object. -/
theorem decodeNfcCard_obj (d : Json) (c : NfcCard) (h : decodeNfcCard d = some c) :
    ∃ fields, d = .obj fields := by
  cases d <;> simp [decodeNfcCard] at h
  exact ⟨_, rfl⟩

/-- A payload that decodes as a card decodes as `Some card` under
`Option<NfcCard>`. -/
theorem decodeOpt_of_decode (d : Json) (c : NfcCard) (h : decodeNfcCard d = some c) :
    decodeOptNfcCard d = some (some c) := by
  obtain ⟨fields, rfl⟩ := decodeNfcCard_obj d c h
  simp [decodeOptNfcCard, h]

/-- Unfolding `pollLoop` at a pending poll. -/
theorem pollLoop_pending_step (sid : String) (r : Except String String)
    (rest : List (Except String String))
    (h : get_nfc_enrollment_session_status r = .ok none) :
    pollLoop sid (r :: rest) =
      ((pollLoop sid rest).1, .pollCall sid :: .sleepMs 100 :: (pollLoop sid rest).2) := by
  simp [pollLoop, h]

/-- Unfolding `pollLoop` at a failing poll. -/
theorem pollLoop_error_step (sid : String) (r : Except String String)
    (rest : List (Except String String)) (e : UnifiError)
    (h : get_nfc_enrollment_session_status r = .error e) :
    pollLoop sid (r :: rest) = (some (.error e), [.pollCall sid]) := by
  simp [pollLoop, h]

/-- Unfolding `pollLoop` at a resolving poll. -/
theorem pollLoop_card_step (sid : String) (r : Except String String)
    (rest : List (Except String String)) (card : NfcCard)
    (h : get_nfc_enrollment_session_status r = .ok (some card)) :
    pollLoop sid (r :: rest) = (some (.ok card), [.pollCall sid]) := by
  simp [pollLoop, h]

/-- Unfolding `enroll_nfc_card` once the start call succeeded. -/
theorem enroll_eq (startResp : Except String String)
    (polls : List (Except String String)) (sid : String)
    (hstart : start_nfc_enrollment_session startResp = .ok sid) :
    enroll_nfc_card startResp polls =
      ((pollLoop sid polls).1,
       .startCall :: .sessionWrite sid :: (pollLoop sid polls).2) := by
  simp [enroll_nfc_card, hstart]

/-- Polls and sleeps are the only events the polling loop emits. -/
theorem pollLoop_events_loop (sid : String) (polls : List (Except String String)) :
    (pollLoop sid polls).2.all (isLoopEvent sid) = true := by
  induction polls with
  | nil => rfl
  | cons r rest ih =>
    cases hst : get_nfc_enrollment_session_status r with
    | error e => simp [pollLoop, hst, isLoopEvent]
    | ok v =>
      cases v with
      | none => simp [pollLoop, hst, isLoopEvent, ih]
      | some c => simp [pollLoop, hst, isLoopEvent]

/-- A trace of loop events contains no holder write. -/
theorem loopEvents_no_write (sid : String) (t : List Event)
    (h : t.all (isLoopEvent sid) = true) (v : Option String) :
    t.foldl holderUpd v = v := by
  induction t generalizing v with
  | nil => rfl
  | cons e rest ih =>
    simp only [List.all_cons, Bool.and_eq_true] at h
    rw [List.foldl_cons]
    have he : holderUpd v e = v := by
      cases e <;> simp [isLoopEvent] at h <;> simp [holderUpd]
    rw [he]
    exact ih h.2 v

/-- Every poll in a trace of loop events uses the loop's session id. -/
theorem loopEvents_pollsUse (sid : String) (t : List Event)
    (h : t.all (isLoopEvent sid) = true) :
    pollsUse sid t = true := by
  induction t with
  | nil => rfl
  | cons e rest ih =>
    simp only [List.all_cons, Bool.and_eq_true] at h
    simp only [pollsUse, List.all_cons, Bool.and_eq_true]
    refine ⟨?_, ih h.2⟩
    cases e <;> simp [isLoopEvent] at h ⊢
    exact h.1

/-- A trace of loop events writes the holder zero times. -/
theorem loopEvents_writeCount (sid : String) (t : List Event)
    (h : t.all (isLoopEvent sid) = true) :
    writeCount t = 0 := by
  induction t with
  | nil => rfl
  | cons e rest ih =>
    simp only [List.all_cons, Bool.and_eq_true] at h
    have := ih h.2
    cases e <;> simp [isLoopEvent] at h <;> simp [writeCount, List.filter] at this ⊢ <;>
      exact this

/-- A non-poll event at the head leaves the poll count unchanged. -/
theorem countPolls_cons_nonpoll (e : Event) (t : List Event)
    (h : isPollEvent e = false) :
    countPolls (e :: t) = countPolls t := by
  simp [countPolls, List.filter, h]

/-- A poll followed by a sleep adds one to the poll count. -/
theorem countPolls_poll_sleep (sid : String) (ms : Nat) (t : List Event) :
    countPolls (.pollCall sid :: .sleepMs ms :: t) = countPolls t + 1 := by
  simp [countPolls, List.filter, isPollEvent]

/-- If the first `k` polls are pending and the `k`-th response fails the
status check, the loop stops there with that failure after `k + 1`
polls. -/
theorem pollLoop_terminal_at (sid : String) (k : Nat)
    (polls : List (Except String String)) (body : String) (e : UnifiError)
    (hpend : allPending (polls.take k) = true)
    (hk : polls.get? k = some (.ok body))
    (hterm : get_nfc_enrollment_session_status (.ok body) = .error e) :
    (pollLoop sid polls).1 = some (.error e) ∧
    countPolls (pollLoop sid polls).2 = k + 1 := by
  induction k generalizing polls with
  | zero =>
    cases polls with
    | nil => simp at hk
    | cons r rest =>
      rw [List.get?_cons_zero] at hk
      injection hk with hr
      subst hr
      rw [pollLoop_error_step sid _ rest e hterm]
      exact ⟨rfl, by simp [countPolls, List.filter, isPollEvent]⟩
  | succ n ih =>
    cases polls with
    | nil => simp at hk
    | cons r rest =>
      rw [List.take_succ_cons] at hpend
      simp only [allPending, List.all_cons, Bool.and_eq_true] at hpend
      obtain ⟨hr, hrest⟩ := hpend
      have hst := isPending_eq _ hr
      rw [List.get?_cons_succ] at hk
      obtain ⟨m1, m2⟩ := ih rest hrest hk
      rw [pollLoop_pending_step sid r rest hst]
      exact ⟨m1, by rw [countPolls_poll_sleep, m2]⟩

/-- C1: For every response whose body parses as a well-formed envelope
with `code != "SUCCESS"`, both the raw request operation
(`generic_request_no_parse`) and the typed request operation
(`generic_request`) fail with the `ApiError`-style failure carrying the
envelope's `msg` and the request path, regardless of whether a `data`
field is present. -/
theorem envelope_error_fails_both_requests (T : Type) (dec : Json → Option T)
    (api_path body : String) (env : GenericResponse)
    (hp : parseGenericResponse body = some env)
    (hcode : env.code ≠ "SUCCESS") :
    generic_request_no_parse api_path (.ok body) = .error (.apiError api_path env.msg) ∧
    generic_request dec api_path (.ok body) = .error (.apiError api_path env.msg) := by
  have h1 := no_parse_api_error api_path body env hp hcode
  exact ⟨h1, by simp [generic_request, h1]⟩

theorem envelope_error_fails_both_requests_witness :
    generic_request_no_parse "/api/x"
        (.ok "\x7b\"code\":\"ERROR\",\"msg\":\"oops\",\"data\":\x7b\"id\":\"a\"\x7d\x7d") =
      .error (.apiError "/api/x" "oops") ∧
    generic_request decodeAnyJson "/api/x"
        (.ok "\x7b\"code\":\"ERROR\",\"msg\":\"oops\",\"data\":\x7b\"id\":\"a\"\x7d\x7d") =
      .error (.apiError "/api/x" "oops") :=
  envelope_error_fails_both_requests Json decodeAnyJson "/api/x"
    "\x7b\"code\":\"ERROR\",\"msg\":\"oops\",\"data\":\x7b\"id\":\"a\"\x7d\x7d"
    ⟨some (.obj [("id", .str "a")]), "oops", "ERROR"⟩ rfl (by decide)

/-- C6: For every response that is a well-formed envelope with
`code == "SUCCESS"` and an absent `data` field, the typed request
operation (`generic_request`) fails with a distinguishable missing-data
error, while the raw request operation (`generic_request_no_parse`)
returns successfully with no payload. -/
theorem missing_data_typed_fails_raw_succeeds (T : Type) (dec : Json → Option T)
    (api_path body : String) (env : GenericResponse)
    (hp : parseGenericResponse body = some env)
    (hcode : env.code = "SUCCESS") (hdata : env.data = none) :
    generic_request_no_parse api_path (.ok body) = .ok none ∧
    generic_request dec api_path (.ok body) = .error .noDataFound ∧
    UnifiError.noDataFound.kind ≠ ErrKind.api ∧
    UnifiError.noDataFound.kind ≠ ErrKind.schemaBad ∧
    UnifiError.noDataFound.kind ≠ ErrKind.transport ∧
    UnifiError.noDataFound.kind ≠ ErrKind.malformed ∧
    UnifiError.noDataFound.kind ≠ ErrKind.canceled := by
  have h1 : generic_request_no_parse api_path (.ok body) = .ok none := by
    rw [no_parse_success api_path body env hp hcode, hdata]
  exact ⟨h1, by simp [generic_request, h1], by decide, by decide, by decide, by decide,
    by decide⟩

theorem missing_data_typed_fails_raw_succeeds_witness :
    generic_request_no_parse "/api/x" (.ok "\x7b\"code\":\"SUCCESS\",\"msg\":\"ok\"\x7d") =
      .ok none ∧
    generic_request decodeAnyJson "/api/x"
        (.ok "\x7b\"code\":\"SUCCESS\",\"msg\":\"ok\"\x7d") = .error .noDataFound ∧
    UnifiError.noDataFound.kind ≠ ErrKind.api ∧
    UnifiError.noDataFound.kind ≠ ErrKind.schemaBad ∧
    UnifiError.noDataFound.kind ≠ ErrKind.transport ∧
    UnifiError.noDataFound.kind ≠ ErrKind.malformed ∧
    UnifiError.noDataFound.kind ≠ ErrKind.canceled :=
  missing_data_typed_fails_raw_succeeds Json decodeAnyJson "/api/x"
    "\x7b\"code\":\"SUCCESS\",\"msg\":\"ok\"\x7d" ⟨none, "ok", "SUCCESS"⟩ rfl rfl rfl

/-- The not-found response body used to refute C3 as stated. -/
def endNotFoundBody : String :=
  "\x7b\"code\":\"CODE_SESSION_NOT_FOUND\",\"msg\":\"session not found\"\x7d"

/-- C3 counterexample: ending a session the server reports as not found
(a well-formed non-SUCCESS envelope) returns an error — the claim that
`end_enrollment_session` succeeds for already-closed sessions is false
on the code. -/
theorem end_session_not_found_counterexample :
    end_enrollment_session "sess1" (.ok endNotFoundBody) =
      .error (.apiError (endSessionPath "sess1") "session not found") ∧
    end_enrollment_session "sess1" (.ok endNotFoundBody) ≠ .ok () := by
  refine ⟨rfl, ?_⟩
  intro h
  rw [show end_enrollment_session "sess1" (.ok endNotFoundBody) =
        .error (.apiError (endSessionPath "sess1") "session not found") from rfl] at h
  exact Except.noConfusion h

/-- C3 (amended): calling `end_enrollment_session` on a session the
server reports as not found (any well-formed non-SUCCESS envelope)
returns an error: the `ApiError`-style failure from the generic layer
propagates unchanged, so `end` is not tolerant of already-resolved,
expired, or already-closed sessions. -/
theorem end_session_non_success_propagates_error (session_id body : String)
    (env : GenericResponse)
    (hp : parseGenericResponse body = some env)
    (hcode : env.code ≠ "SUCCESS") :
    end_enrollment_session session_id (.ok body) =
      .error (.apiError (endSessionPath session_id) env.msg) := by
  simp [end_enrollment_session,
    no_parse_api_error (endSessionPath session_id) body env hp hcode]

theorem end_session_non_success_propagates_error_witness :
    end_enrollment_session "sess2" (.ok "\x7b\"code\":\"ERR\",\"msg\":\"gone\"\x7d") =
      .error (.apiError (endSessionPath "sess2") "gone") :=
  end_session_non_success_propagates_error "sess2"
    "\x7b\"code\":\"ERR\",\"msg\":\"gone\"\x7d" ⟨none, "gone", "ERR"⟩ rfl (by decide)

/-- C9: A poll response body containing both sentinel substrings
`SESSION_NOT_FOUND` and `TOKEN_EMPTY` is classified as canceled, not
pending: the `SESSION_NOT_FOUND` check runs first. -/
theorem both_markers_classified_canceled (body : String)
    (h1 : containsSub "SESSION_NOT_FOUND" body = true)
    (_h2 : containsSub "TOKEN_EMPTY" body = true) :
    get_nfc_enrollment_session_status (.ok body) = .error .sessionCanceled ∧
    get_nfc_enrollment_session_status (.ok body) ≠ .ok none := by
  have h := status_snf body h1
  refine ⟨h, ?_⟩
  rw [h]
  intro hx
  exact Except.noConfusion hx

theorem both_markers_classified_canceled_witness :
    get_nfc_enrollment_session_status (.ok "SESSION_NOT_FOUND TOKEN_EMPTY") =
      .error .sessionCanceled ∧
    get_nfc_enrollment_session_status (.ok "SESSION_NOT_FOUND TOKEN_EMPTY") ≠ .ok none :=
  both_markers_classified_canceled "SESSION_NOT_FOUND TOKEN_EMPTY" (by decide) (by decide)

/-- C5: A poll response body containing neither sentinel marker never
silently yields the pending outcome: if the body is not a well-formed
envelope (in particular, not valid JSON) or the envelope lacks a `data`
payload, the poll fails — with the malformed-response error in the
former case and the protocol missing-data error in the latter — and
never returns `Ok(None)`. -/
theorem poll_lacking_payload_errors_not_pending (body : String)
    (h1 : containsSub "SESSION_NOT_FOUND" body = false)
    (h2 : containsSub "TOKEN_EMPTY" body = false)
    (hbad : lacksPayload body = true) :
    isErrorResult (get_nfc_enrollment_session_status (.ok body)) = true ∧
    isPending (get_nfc_enrollment_session_status (.ok body)) = false ∧
    (get_nfc_enrollment_session_status (.ok body) = .error (.malformedResponse body) ∨
     get_nfc_enrollment_session_status (.ok body) = .error .dataNotFoundInResponse) := by
  unfold lacksPayload at hbad
  cases hp : parseGenericResponse body with
  | none =>
    have h := status_malformed body h1 h2 hp
    rw [h]
    exact ⟨rfl, rfl, Or.inl rfl⟩
  | some env =>
    rw [hp] at hbad
    have hbad' : env.data.isNone = true := hbad
    have hdata : env.data = none := Option.isNone_iff_eq_none.mp hbad'
    have h := status_envelope body env h1 h2 hp
    rw [h, hdata]
    exact ⟨rfl, rfl, Or.inr rfl⟩

theorem poll_lacking_payload_errors_not_pending_witness :
    isErrorResult (get_nfc_enrollment_session_status (.ok "this is not json")) = true ∧
    isPending (get_nfc_enrollment_session_status (.ok "this is not json")) = false ∧
    (get_nfc_enrollment_session_status (.ok "this is not json") =
       .error (.malformedResponse "this is not json") ∨
     get_nfc_enrollment_session_status (.ok "this is not json") =
       .error .dataNotFoundInResponse) :=
  poll_lacking_payload_errors_not_pending "this is not json"
    (by decide) (by decide) (by decide)

/-- C10: The single poll operation never inspects the envelope's `code`
field: for every body containing neither sentinel that parses as a
well-formed envelope with `code != "SUCCESS"`, the poll's outcome is
computed from the payload alone, whatever its shape: a present `data`
payload that decodes as a card is returned as resolved even though the
code is not `SUCCESS`, an absent `data` payload yields the poll's
missing-data error, and the outcome is never an `ApiError` (so it never
carries the envelope's `msg`). -/
theorem poll_ignores_envelope_code (body : String) (env : GenericResponse)
    (h1 : containsSub "SESSION_NOT_FOUND" body = false)
    (h2 : containsSub "TOKEN_EMPTY" body = false)
    (hp : parseGenericResponse body = some env)
    (_hcode : env.code ≠ "SUCCESS") :
    get_nfc_enrollment_session_status (.ok body) = pollDecodePayload env.data ∧
    (∀ d card, env.data = some d → decodeNfcCard d = some card →
      get_nfc_enrollment_session_status (.ok body) = .ok (some card)) ∧
    (env.data = none →
      get_nfc_enrollment_session_status (.ok body) = .error .dataNotFoundInResponse) ∧
    errKindOf (get_nfc_enrollment_session_status (.ok body)) ≠ some ErrKind.api := by
  have h := status_envelope body env h1 h2 hp
  refine ⟨h, ?_, ?_, ?_⟩
  · intro d card hd hc
    rw [h, hd]
    simp [pollDecodePayload, decodeOpt_of_decode d card hc]
  · intro hd
    rw [h, hd]
    rfl
  · rw [h]
    cases hd : env.data with
    | none => decide
    | some d =>
      cases hdec : decodeOptNfcCard d with
      | none => simp [pollDecodePayload, hdec, errKindOf, UnifiError.kind]
      | some x => simp [pollDecodePayload, hdec, errKindOf]

theorem poll_ignores_envelope_code_witness :
    get_nfc_enrollment_session_status (.ok "\x7b\"code\":\"ERROR\",\"msg\":\"bad\"\x7d") =
      pollDecodePayload none ∧
    (∀ d card, (none : Option Json) = some d → decodeNfcCard d = some card →
      get_nfc_enrollment_session_status (.ok "\x7b\"code\":\"ERROR\",\"msg\":\"bad\"\x7d") =
        .ok (some card)) ∧
    ((none : Option Json) = none →
      get_nfc_enrollment_session_status (.ok "\x7b\"code\":\"ERROR\",\"msg\":\"bad\"\x7d") =
        .error .dataNotFoundInResponse) ∧
    errKindOf (get_nfc_enrollment_session_status
        (.ok "\x7b\"code\":\"ERROR\",\"msg\":\"bad\"\x7d")) ≠ some ErrKind.api :=
  poll_ignores_envelope_code "\x7b\"code\":\"ERROR\",\"msg\":\"bad\"\x7d"
    ⟨none, "bad", "ERROR"⟩ (by decide) (by decide) rfl (by decide)

/-- C8: A credential deserialized from a well-formed payload and
re-serialized reproduces the payload's `id` and `token` fields. -/
theorem nfc_card_roundtrip_fields (j : Json) (c : NfcCard)
    (h : decodeNfcCard j = some c) :
    jsonGet (serializeNfcCard c) "id" = jsonGet j "id" ∧
    jsonGet (serializeNfcCard c) "token" = jsonGet j "token" := by
  obtain ⟨fields, rfl⟩ := decodeNfcCard_obj j c h
  simp only [decodeNfcCard] at h
  cases hid : lookupLast fields "id" with
  | none => rw [hid] at h; exact absurd h (by simp)
  | some vi =>
    cases htok : lookupLast fields "token" with
    | none => rw [hid, htok] at h; cases vi <;> simp at h
    | some vt =>
      rw [hid, htok] at h
      cases vi with
      | str i =>
        cases vt with
        | str t =>
          simp only [Option.some.injEq] at h
          subst h
          constructor
          · simp only [jsonGet, serializeNfcCard]
            rw [hid]
            rfl
          · simp only [jsonGet, serializeNfcCard]
            rw [htok]
            rfl
        | null => simp at h
        | bool b => simp at h
        | num n => simp at h
        | arr a => simp at h
        | obj o => simp at h
      | null => simp at h
      | bool b => simp at h
      | num n => simp at h
      | arr a => simp at h
      | obj o => simp at h

theorem nfc_card_roundtrip_fields_witness :
    jsonGet (serializeNfcCard ⟨"c1", "t1"⟩) "id" =
      jsonGet (.obj [("id", .str "c1"), ("token", .str "t1"), ("extra", .num "3")]) "id" ∧
    jsonGet (serializeNfcCard ⟨"c1", "t1"⟩) "token" =
      jsonGet (.obj [("id", .str "c1"), ("token", .str "t1"), ("extra", .num "3")]) "token" :=
  nfc_card_roundtrip_fields
    (.obj [("id", .str "c1"), ("token", .str "t1"), ("extra", .num "3")]) ⟨"c1", "t1"⟩ rfl

/-- The start event and the holder write contribute one write to the
trace's write count. -/
theorem writeCount_start_write (sid : String) (t : List Event) :
    writeCount (.startCall :: .sessionWrite sid :: t) = writeCount t + 1 := rfl

/-- C2: In any enrollment run whose first `k` polls are pending and
whose `k`-th poll response body contains `SESSION_NOT_FOUND`,
`enroll_nfc_card` terminates immediately with the session-canceled
failure — a kind distinct from transport, malformed-response, api,
missing-data and schema-mismatch failures — and performs no poll after
that response (exactly `k + 1` polls in total). -/
theorem enroll_session_not_found_cancels
    (startResp : Except String String) (polls : List (Except String String))
    (sid body : String) (k : Nat)
    (hstart : start_nfc_enrollment_session startResp = .ok sid)
    (hpend : allPending (polls.take k) = true)
    (hk : polls.get? k = some (.ok body))
    (hsnf : containsSub "SESSION_NOT_FOUND" body = true) :
    (enroll_nfc_card startResp polls).1 = some (.error .sessionCanceled) ∧
    countPolls (enroll_nfc_card startResp polls).2 = k + 1 ∧
    UnifiError.sessionCanceled.kind ≠ ErrKind.transport ∧
    UnifiError.sessionCanceled.kind ≠ ErrKind.malformed ∧
    UnifiError.sessionCanceled.kind ≠ ErrKind.api ∧
    UnifiError.sessionCanceled.kind ≠ ErrKind.noData ∧
    UnifiError.sessionCanceled.kind ≠ ErrKind.schemaBad := by
  have hterm := status_snf body hsnf
  obtain ⟨m1, m2⟩ := pollLoop_terminal_at sid k polls body .sessionCanceled hpend hk hterm
  rw [enroll_eq startResp polls sid hstart]
  refine ⟨m1, ?_, by decide, by decide, by decide, by decide, by decide⟩
  rw [countPolls_cons_nonpoll Event.startCall _ rfl,
    countPolls_cons_nonpoll (Event.sessionWrite sid) _ rfl]
  exact m2

theorem enroll_session_not_found_cancels_witness :
    (enroll_nfc_card
        (.ok "\x7b\"code\":\"SUCCESS\",\"msg\":\"ok\",\"data\":\x7b\"session_id\":\"sess1\"\x7d\x7d")
        [.ok "TOKEN_EMPTY", .ok "SESSION_NOT_FOUND"]).1 =
      some (.error .sessionCanceled) ∧
    countPolls (enroll_nfc_card
        (.ok "\x7b\"code\":\"SUCCESS\",\"msg\":\"ok\",\"data\":\x7b\"session_id\":\"sess1\"\x7d\x7d")
        [.ok "TOKEN_EMPTY", .ok "SESSION_NOT_FOUND"]).2 = 2 ∧
    UnifiError.sessionCanceled.kind ≠ ErrKind.transport ∧
    UnifiError.sessionCanceled.kind ≠ ErrKind.malformed ∧
    UnifiError.sessionCanceled.kind ≠ ErrKind.api ∧
    UnifiError.sessionCanceled.kind ≠ ErrKind.noData ∧
    UnifiError.sessionCanceled.kind ≠ ErrKind.schemaBad :=
  enroll_session_not_found_cancels
    (.ok "\x7b\"code\":\"SUCCESS\",\"msg\":\"ok\",\"data\":\x7b\"session_id\":\"sess1\"\x7d\x7d")
    [.ok "TOKEN_EMPTY", .ok "SESSION_NOT_FOUND"] "sess1" "SESSION_NOT_FOUND" 1
    rfl (by decide) rfl (by decide)

/-- C4: For the poll response sequence
`[TOKEN_EMPTY, TOKEN_EMPTY, well-formed success envelope whose data is
a valid card]`, `enroll_nfc_card` returns the card decoded from the
third response, issues exactly three status polls, and sleeps 100 ms
between consecutive polls. -/
theorem enroll_three_polls_returns_card
    (startResp : Except String String) (b1 b2 b3 sid : String)
    (env : GenericResponse) (d : Json) (card : NfcCard)
    (hstart : start_nfc_enrollment_session startResp = .ok sid)
    (h1s : containsSub "SESSION_NOT_FOUND" b1 = false)
    (h1t : containsSub "TOKEN_EMPTY" b1 = true)
    (h2s : containsSub "SESSION_NOT_FOUND" b2 = false)
    (h2t : containsSub "TOKEN_EMPTY" b2 = true)
    (h3s : containsSub "SESSION_NOT_FOUND" b3 = false)
    (h3t : containsSub "TOKEN_EMPTY" b3 = false)
    (hp : parseGenericResponse b3 = some env)
    (_hcode : env.code = "SUCCESS")
    (hdata : env.data = some d)
    (hcard : decodeNfcCard d = some card) :
    enroll_nfc_card startResp [.ok b1, .ok b2, .ok b3] =
      (some (.ok card),
       [.startCall, .sessionWrite sid, .pollCall sid, .sleepMs 100,
        .pollCall sid, .sleepMs 100, .pollCall sid]) := by
  have s1 := status_token_empty b1 h1s h1t
  have s2 := status_token_empty b2 h2s h2t
  have s3 : get_nfc_enrollment_session_status (.ok b3) = .ok (some card) := by
    rw [status_envelope b3 env h3s h3t hp, hdata]
    simp [pollDecodePayload, decodeOpt_of_decode d card hcard]
  rw [enroll_eq startResp [.ok b1, .ok b2, .ok b3] sid hstart,
    pollLoop_pending_step sid _ _ s1, pollLoop_pending_step sid _ _ s2,
    pollLoop_card_step sid _ _ card s3]

theorem enroll_three_polls_returns_card_witness :
    enroll_nfc_card
        (.ok "\x7b\"code\":\"SUCCESS\",\"msg\":\"ok\",\"data\":\x7b\"session_id\":\"sess1\"\x7d\x7d")
        [.ok "TOKEN_EMPTY", .ok "TOKEN_EMPTY",
         .ok "\x7b\"code\":\"SUCCESS\",\"msg\":\"ok\",\"data\":\x7b\"id\":\"c1\",\"token\":\"t1\"\x7d\x7d"] =
      (some (.ok ⟨"c1", "t1"⟩),
       [.startCall, .sessionWrite "sess1", .pollCall "sess1", .sleepMs 100,
        .pollCall "sess1", .sleepMs 100, .pollCall "sess1"]) :=
  enroll_three_polls_returns_card
    (.ok "\x7b\"code\":\"SUCCESS\",\"msg\":\"ok\",\"data\":\x7b\"session_id\":\"sess1\"\x7d\x7d")
    "TOKEN_EMPTY" "TOKEN_EMPTY"
    "\x7b\"code\":\"SUCCESS\",\"msg\":\"ok\",\"data\":\x7b\"id\":\"c1\",\"token\":\"t1\"\x7d\x7d"
    "sess1" ⟨some (.obj [("id", .str "c1"), ("token", .str "t1")]), "ok", "SUCCESS"⟩
    (.obj [("id", .str "c1"), ("token", .str "t1")]) ⟨"c1", "t1"⟩
    rfl (by decide) (by decide) (by decide) (by decide) (by decide) (by decide)
    rfl rfl rfl rfl

/-- C7: In every enrollment run whose start call returns a session id,
the id is written into the mutex-guarded holder right after the start
call and strictly before the first poll (the first two trace events are
the start call and the holder write, and no poll is among them), every
poll uses that id, the holder is written exactly once, and afterwards a
concurrent reader of the holder obtains the in-progress session id. -/
theorem session_id_written_before_first_poll
    (startResp : Except String String) (polls : List (Except String String))
    (sid : String)
    (hstart : start_nfc_enrollment_session startResp = .ok sid) :
    (enroll_nfc_card startResp polls).2.get? 0 = some .startCall ∧
    (enroll_nfc_card startResp polls).2.get? 1 = some (.sessionWrite sid) ∧
    countPolls ((enroll_nfc_card startResp polls).2.take 2) = 0 ∧
    pollsUse sid (enroll_nfc_card startResp polls).2 = true ∧
    writeCount (enroll_nfc_card startResp polls).2 = 1 ∧
    holderAfter (enroll_nfc_card startResp polls).2 = some sid := by
  rw [enroll_eq startResp polls sid hstart]
  have hloop := pollLoop_events_loop sid polls
  refine ⟨rfl, rfl, ?_, ?_, ?_, ?_⟩
  · cases h : (pollLoop sid polls).2 with
    | nil => rfl
    | cons e t => rfl
  · simp only [pollsUse, List.all_cons]
    exact loopEvents_pollsUse sid _ hloop
  · rw [writeCount_start_write sid _, loopEvents_writeCount sid _ hloop]
  · simp only [holderAfter, List.foldl_cons]
    exact loopEvents_no_write sid _ hloop (some sid)

theorem session_id_written_before_first_poll_witness :
    (enroll_nfc_card
        (.ok "\x7b\"code\":\"SUCCESS\",\"msg\":\"ok\",\"data\":\x7b\"session_id\":\"sess1\"\x7d\x7d")
        [.ok "TOKEN_EMPTY", .ok "SESSION_NOT_FOUND"]).2.get? 0 = some .startCall ∧
    (enroll_nfc_card
        (.ok "\x7b\"code\":\"SUCCESS\",\"msg\":\"ok\",\"data\":\x7b\"session_id\":\"sess1\"\x7d\x7d")
        [.ok "TOKEN_EMPTY", .ok "SESSION_NOT_FOUND"]).2.get? 1 =
      some (.sessionWrite "sess1") ∧
    countPolls ((enroll_nfc_card
        (.ok "\x7b\"code\":\"SUCCESS\",\"msg\":\"ok\",\"data\":\x7b\"session_id\":\"sess1\"\x7d\x7d")
        [.ok "TOKEN_EMPTY", .ok "SESSION_NOT_FOUND"]).2.take 2) = 0 ∧
    pollsUse "sess1" (enroll_nfc_card
        (.ok "\x7b\"code\":\"SUCCESS\",\"msg\":\"ok\",\"data\":\x7b\"session_id\":\"sess1\"\x7d\x7d")
        [.ok "TOKEN_EMPTY", .ok "SESSION_NOT_FOUND"]).2 = true ∧
    writeCount (enroll_nfc_card
        (.ok "\x7b\"code\":\"SUCCESS\",\"msg\":\"ok\",\"data\":\x7b\"session_id\":\"sess1\"\x7d\x7d")
        [.ok "TOKEN_EMPTY", .ok "SESSION_NOT_FOUND"]).2 = 1 ∧
    holderAfter (enroll_nfc_card
        (.ok "\x7b\"code\":\"SUCCESS\",\"msg\":\"ok\",\"data\":\x7b\"session_id\":\"sess1\"\x7d\x7d")
        [.ok "TOKEN_EMPTY", .ok "SESSION_NOT_FOUND"]).2 = some "sess1" :=
  session_id_written_before_first_poll
    (.ok "\x7b\"code\":\"SUCCESS\",\"msg\":\"ok\",\"data\":\x7b\"session_id\":\"sess1\"\x7d\x7d")
    [.ok "TOKEN_EMPTY", .ok "SESSION_NOT_FOUND"] "sess1" rfl
